import Mathlib

/-!
Shallow embedding of the AiPayingRent simulation engine (src/script.js).

Numbers are modelled as exact rationals (`ℚ`); every `Math.random()` draw
in the source becomes an explicit parameter `u ∈ [0,1)` (jitters are passed
directly as `(u - 0.5) * 5 ∈ [-2.5, 2.5)`).  The JS division in `getContext`
is additionally modelled with IEEE-style non-finite results (`JSNum`) so that
the zero-fixed-costs behaviour is captured faithfully.
-/

namespace RentSim

/-- A business record: `{ revenue: 1000 }` in the source. -/
structure Business where
  revenue : ℚ
deriving DecidableEq

/-- Agent state, translated field-for-field from `createAI` in src/script.js. -/
structure Agent where
  name : String
  color : String
  cash : ℚ
  salary : ℚ
  rent : ℚ
  food : ℚ
  otherExpenses : ℚ
  investments : ℚ
  riskTolerance : ℚ
  discipline : ℚ
  intelligence : ℚ
  stress : ℚ
  employed : Bool
  sideHustle : Bool
  business : Option Business
  alive : Bool
deriving DecidableEq

/-- `createAI` from src/script.js: fixed starting finances, caller-chosen traits. -/
def createAI (name : String) (riskTolerance discipline intelligence : ℚ)
    (color : String) : Agent :=
  { name := name
    color := color
    cash := 5000
    salary := 2000
    rent := 800
    food := 400
    otherExpenses := 300
    investments := 0
    riskTolerance := riskTolerance
    discipline := discipline
    intelligence := intelligence
    stress := 0
    employed := true
    sideHustle := false
    business := none
    alive := true }

/-- The four action labels scored by `decisionEngine`, in the enumeration
order of the JS object literal: save, invest, start_business, job_search. -/
inductive Action where
  | save
  | invest
  | start_business
  | job_search
deriving DecidableEq

/-- Position of an action in the fixed enumeration order of the score table. -/
def Action.idx : Action → ℕ
  | .save => 0
  | .invest => 1
  | .start_business => 2
  | .job_search => 3

/-- Per-agent label emitted by the monthly driver: a chosen action, or the
fixed placeholder "BANKRUPT" for dead agents. -/
inductive Label where
  | act : Action → Label
  | bankrupt
deriving DecidableEq

/-- `processIncome` from src/script.js.  `u ∈ [0,1)` is the `Math.random()`
draw for the side-hustle income `300 + u * 400`. -/
def processIncome (ai : Agent) (u : ℚ) : Agent :=
  let c1 := if ai.employed then ai.cash + ai.salary else ai.cash
  let c2 := if ai.sideHustle then c1 + (300 + u * 400) else c1
  let c3 := match ai.business with
    | some b => c2 + b.revenue
    | none => c2
  { ai with cash := c3 }

/-- `processExpenses` from src/script.js. -/
def processExpenses (ai : Agent) : Agent :=
  { ai with cash := ai.cash - (ai.rent + ai.food + ai.otherExpenses) }

/-- `randomEvents` from src/script.js.  `recession` is `economy.recession`;
`r` is the single `Math.random()` draw. -/
def randomEvents (recession : Bool) (ai : Agent) (r : ℚ) : Agent :=
  if recession = true ∧ r < 8 / 100 then
    { ai with employed := false, stress := ai.stress + 20 }
  else if r < 3 / 100 then
    { ai with employed := false, stress := ai.stress + 20 }
  else if r < 6 / 100 then
    { ai with cash := ai.cash - 2000 }
  else ai

/-- Context record returned by `getContext`. -/
structure Context where
  emergencyMonths : ℚ

/-- `getContext` from src/script.js, with JS division on nonzero denominators
modelled as exact rational division. -/
def getContext (ai : Agent) : Context :=
  { emergencyMonths := ai.cash / (ai.rent + ai.food + ai.otherExpenses) }

/-- A JS number outcome for the division in `getContext`: finite, ±Infinity
or NaN. -/
inductive JSNum where
  | finite : ℚ → JSNum
  | posInf : JSNum
  | negInf : JSNum
  | nan : JSNum
deriving DecidableEq

/-- Whether a JS number outcome is finite. -/
def JSNum.isFinite : JSNum → Bool
  | .finite _ => true
  | _ => false

/-- IEEE-style division as JS performs it: finite quotient for a nonzero
denominator, ±Infinity or NaN when the denominator is zero. -/
def jsDiv (a b : ℚ) : JSNum :=
  if b ≠ 0 then .finite (a / b)
  else if 0 < a then .posInf
  else if a < 0 then .negInf
  else .nan

/-- `getContext` in an error-capable monad, with JS division semantics.
The source function body contains no throw and no guard, so the translation
always returns `ok` of the raw division result. -/
def getContextE (ai : Agent) : Except String JSNum :=
  Except.ok (jsDiv ai.cash (ai.rent + ai.food + ai.otherExpenses))

/-- The score table of `decisionEngine` from src/script.js, with the four
independent jitter values `(Math.random() - 0.5) * 5` passed explicitly. -/
def scores (ai : Agent) (jSave jInvest jBusiness jJob : ℚ) : Action → ℚ
  | .save =>
      (3 - (getContext ai).emergencyMonths) * 20 + ai.discipline * 10 -
        ai.riskTolerance * 5 + jSave
  | .invest =>
      (if (getContext ai).emergencyMonths > 3 then
        (getContext ai).emergencyMonths * 5 + ai.discipline * 10
      else -100) + jInvest
  | .start_business =>
      (if ai.cash > 5000 ∧ ai.business = none then ai.riskTolerance * 30
      else -100) + jBusiness
  | .job_search => (if ai.employed = false then 100 else -100) + jJob

/-- The `Object.keys(scores).reduce((a, b) => scores[a] > scores[b] ? a : b)`
fold from src/script.js, over the enumeration order save, invest,
start_business, job_search. -/
def pickBest (s : Action → ℚ) : Action :=
  let step := fun a b => if s a > s b then a else b
  step (step (step Action.save Action.invest) Action.start_business)
    Action.job_search

/-- `executeAction` from src/script.js. -/
def executeAction (ai : Agent) (action : Action) : Agent :=
  match action with
  | .save => ai
  | .invest =>
      let amount := ai.cash * (2 / 10)
      { ai with investments := ai.investments + amount, cash := ai.cash - amount }
  | .start_business =>
      { ai with cash := ai.cash - 5000, business := some { revenue := 1000 } }
  | .job_search => { ai with employed := true }

/-- `decisionEngine` from src/script.js: score, pick the best via the reduce
fold, execute it, return the chosen label (paired here with the mutated
agent). -/
def decisionEngine (ai : Agent) (jSave jInvest jBusiness jJob : ℚ) :
    Action × Agent :=
  let best := pickBest (scores ai jSave jInvest jBusiness jJob)
  (best, executeAction ai best)

/-- `applyInvestments` from src/script.js; `u ∈ [0,1)` is the draw, giving a
return rate `(u - 0.5) * 0.1`. -/
def applyInvestments (ai : Agent) (u : ℚ) : Agent :=
  let returnRate := (u - 1 / 2) * (1 / 10)
  { ai with investments := ai.investments * (1 + returnRate) }

/-- `updateStress` from src/script.js. -/
def updateStress (ai : Agent) : Agent :=
  let s := if ai.cash < ai.rent then ai.stress + 15 else ai.stress
  { ai with stress := max 0 (s - 5) }

/-- The random draws consumed by one full month for one agent, in the order
the source consumes them. -/
structure MonthDraws where
  uSide : ℚ
  rEvent : ℚ
  jSave : ℚ
  jInvest : ℚ
  jBusiness : ℚ
  jJob : ℚ
  uReturn : ℚ

/-- `runMonth` from src/script.js: the full monthly tick for one agent. -/
def runMonth (recession : Bool) (ai : Agent) (d : MonthDraws) : Action × Agent :=
  let ai1 := processIncome ai d.uSide
  let ai2 := processExpenses ai1
  let ai3 := randomEvents recession ai2 d.rEvent
  let pr := decisionEngine ai3 d.jSave d.jInvest d.jBusiness d.jJob
  let ai4 := pr.2
  let ai5 := applyInvestments ai4 d.uReturn
  let ai6 := updateStress ai5
  (pr.1, if ai6.cash < 0 then { ai6 with alive := false } else ai6)

/-- The per-agent body of `simulateMonth` from src/script.js: run the tick for
a living agent, emit the fixed "BANKRUPT" placeholder (and skip every tick
step) for a dead one. -/
def stepAgent (recession : Bool) (ai : Agent) (d : MonthDraws) : Label × Agent :=
  if ai.alive then
    let pr := runMonth recession ai d
    (Label.act pr.1, pr.2)
  else (Label.bankrupt, ai)

/-- Iterated months of the population driver, restricted to one agent: each
list element is the draw tuple of one month. -/
def simulate (recession : Bool) (ai : Agent) : List MonthDraws → Agent
  | [] => ai
  | d :: ds => simulate recession (stepAgent recession ai d).2 ds

/-! ### Frame lemmas: fields each engine function leaves untouched -/

lemma processIncome_business (ai : Agent) (u : ℚ) :
    (processIncome ai u).business = ai.business := rfl

lemma processIncome_sideHustle (ai : Agent) (u : ℚ) :
    (processIncome ai u).sideHustle = ai.sideHustle := rfl

lemma processIncome_alive (ai : Agent) (u : ℚ) :
    (processIncome ai u).alive = ai.alive := rfl

lemma processIncome_riskTolerance (ai : Agent) (u : ℚ) :
    (processIncome ai u).riskTolerance = ai.riskTolerance := rfl

lemma processIncome_discipline (ai : Agent) (u : ℚ) :
    (processIncome ai u).discipline = ai.discipline := rfl

lemma processExpenses_business (ai : Agent) :
    (processExpenses ai).business = ai.business := rfl

lemma processExpenses_sideHustle (ai : Agent) :
    (processExpenses ai).sideHustle = ai.sideHustle := rfl

lemma processExpenses_alive (ai : Agent) :
    (processExpenses ai).alive = ai.alive := rfl

lemma processExpenses_riskTolerance (ai : Agent) :
    (processExpenses ai).riskTolerance = ai.riskTolerance := rfl

lemma processExpenses_discipline (ai : Agent) :
    (processExpenses ai).discipline = ai.discipline := rfl

lemma randomEvents_business (recession : Bool) (ai : Agent) (r : ℚ) :
    (randomEvents recession ai r).business = ai.business := by
  unfold randomEvents; split_ifs <;> rfl

lemma randomEvents_sideHustle (recession : Bool) (ai : Agent) (r : ℚ) :
    (randomEvents recession ai r).sideHustle = ai.sideHustle := by
  unfold randomEvents; split_ifs <;> rfl

lemma randomEvents_alive (recession : Bool) (ai : Agent) (r : ℚ) :
    (randomEvents recession ai r).alive = ai.alive := by
  unfold randomEvents; split_ifs <;> rfl

lemma randomEvents_riskTolerance (recession : Bool) (ai : Agent) (r : ℚ) :
    (randomEvents recession ai r).riskTolerance = ai.riskTolerance := by
  unfold randomEvents; split_ifs <;> rfl

lemma randomEvents_discipline (recession : Bool) (ai : Agent) (r : ℚ) :
    (randomEvents recession ai r).discipline = ai.discipline := by
  unfold randomEvents; split_ifs <;> rfl

lemma executeAction_sideHustle (ai : Agent) (a : Action) :
    (executeAction ai a).sideHustle = ai.sideHustle := by
  cases a <;> rfl

lemma executeAction_alive (ai : Agent) (a : Action) :
    (executeAction ai a).alive = ai.alive := by
  cases a <;> rfl

lemma executeAction_business_of_ne (ai : Agent) (a : Action)
    (h : a ≠ Action.start_business) :
    (executeAction ai a).business = ai.business := by
  cases a <;> first | rfl | exact absurd rfl h

lemma applyInvestments_business (ai : Agent) (u : ℚ) :
    (applyInvestments ai u).business = ai.business := rfl

lemma applyInvestments_sideHustle (ai : Agent) (u : ℚ) :
    (applyInvestments ai u).sideHustle = ai.sideHustle := rfl

lemma applyInvestments_alive (ai : Agent) (u : ℚ) :
    (applyInvestments ai u).alive = ai.alive := rfl

lemma updateStress_business (ai : Agent) :
    (updateStress ai).business = ai.business := rfl

lemma updateStress_sideHustle (ai : Agent) :
    (updateStress ai).sideHustle = ai.sideHustle := rfl

lemma updateStress_alive (ai : Agent) :
    (updateStress ai).alive = ai.alive := rfl

/-! ### Properties of the score-table fold -/

/-- The fold result's score is not exceeded by any action's score. -/
lemma pickBest_le (s : Action → ℚ) (b : Action) : s b ≤ s (pickBest s) := by
  unfold pickBest
  cases b <;> dsimp only <;> split_ifs <;> linarith

/-- Every action strictly later in enumeration order than the fold result has
a strictly smaller score: the fold returns the last argmax. -/
lemma pickBest_later_lt (s : Action → ℚ) (b : Action)
    (h : (pickBest s).idx < b.idx) : s b < s (pickBest s) := by
  unfold pickBest at h ⊢
  cases b <;> dsimp only at h ⊢ <;> split_ifs at h ⊢ <;>
    simp_all [Action.idx]

/-- If some action strictly outscores `start_business`, the fold cannot
return `start_business`. -/
lemma pickBest_ne_start_business (s : Action → ℚ) (b : Action)
    (h : s Action.start_business < s b) : pickBest s ≠ Action.start_business := by
  intro hp
  have hle := pickBest_le s b
  rw [hp] at hle
  linarith

/-- If `job_search` strictly outscores the three other actions, the fold
returns `job_search`. -/
lemma pickBest_eq_job_search (s : Action → ℚ)
    (h1 : s Action.save < s Action.job_search)
    (h2 : s Action.invest < s Action.job_search)
    (h3 : s Action.start_business < s Action.job_search) :
    pickBest s = Action.job_search := by
  have hle := pickBest_le s Action.job_search
  cases hp : pickBest s <;> rw [hp] at hle <;> first | rfl | linarith

/-! ### Concrete agents used by witnesses and counterexamples -/

/-- An agent whose fixed monthly costs all equal zero, exercising the
zero-denominator path of context derivation. -/
def zeroCostAgent : Agent :=
  { name := "Z", color := "#000", cash := 5000, salary := 2000, rent := 0,
    food := 0, otherExpenses := 0, investments := 0, riskTolerance := 1/2,
    discipline := 1/2, intelligence := 1/2, stress := 0, employed := true,
    sideHustle := false, business := none, alive := true }

/-- Name used by the concrete witness agent. -/
def wName : String := "W"

/-- Color used by the concrete witness agent. -/
def wColor : String := "#fff"

/-- A freshly created agent with mid-range traits. -/
def wAgent : Agent := createAI wName (1/2) (1/2) (4/5) wColor

/-- An agent drawing all three income streams at once. -/
def hustleAgent : Agent :=
  { name := "H", color := "#123", cash := 5000, salary := 2000, rent := 800,
    food := 400, otherExpenses := 300, investments := 0, riskTolerance := 1/2,
    discipline := 1/2, intelligence := 1/2, stress := 0, employed := true,
    sideHustle := true, business := some { revenue := 1000 }, alive := true }

/-! ### Claim theorems -/

/-- Claim C1, counterexample: on a concrete agent whose fixed monthly costs sum
to zero, `getContext` does not raise an explicit error — it returns `ok` of the
non-finite value Infinity. -/
theorem getContextE_zero_costs_counterexample :
    zeroCostAgent.rent + zeroCostAgent.food + zeroCostAgent.otherExpenses = 0 ∧
    getContextE zeroCostAgent = Except.ok JSNum.posInf ∧
    JSNum.posInf.isFinite = false := by
  refine ⟨by norm_num [zeroCostAgent], ?_, rfl⟩
  norm_num [getContextE, jsDiv, zeroCostAgent]

/-- Claim C1, amended: `getContext` has no explicit error path.  For every agent
whose fixed monthly costs sum to zero, it returns `ok` of a non-finite value
(Infinity, -Infinity or NaN depending on the sign of cash) instead of raising
an error. -/
theorem getContextE_zero_costs_nonfinite (ai : Agent)
    (h : ai.rent + ai.food + ai.otherExpenses = 0) :
    ∃ v, getContextE ai = Except.ok v ∧ v.isFinite = false := by
  unfold getContextE jsDiv
  rw [h]
  split_ifs with h1 h2 h3
  · exact absurd rfl h1
  · exact ⟨JSNum.posInf, rfl, rfl⟩
  · exact ⟨JSNum.negInf, rfl, rfl⟩
  · exact ⟨JSNum.nan, rfl, rfl⟩

/-- Witness for the amended C1 theorem at the concrete zero-cost agent. -/
theorem getContextE_zero_costs_nonfinite_witness :
    ∃ v, getContextE zeroCostAgent = Except.ok v ∧ v.isFinite = false :=
  getContextE_zero_costs_nonfinite zeroCostAgent (by norm_num [zeroCostAgent])

/-- Claim C3: with the recession flag set, one call of `randomEvents` applies
the job-loss outcome (employed := false, stress += 20) exactly when the draw is
below 0.08, and for every other draw in [0,1) it changes nothing at all — in
particular the r < 0.03 band never fires independently, and at most one outcome
is applied. -/
theorem randomEvents_recession_cases (ai : Agent) (r : ℚ)
    (h0 : 0 ≤ r) (h1 : r < 1) :
    (r < 8/100 →
      randomEvents true ai r =
        { ai with employed := false, stress := ai.stress + 20 }) ∧
    (8/100 ≤ r → randomEvents true ai r = ai) := by
  constructor
  · intro hr
    unfold randomEvents
    split_ifs with hA hB hC <;> first | rfl | exact absurd ⟨rfl, hr⟩ hA
  · intro hr
    unfold randomEvents
    split_ifs with hA hB hC
    · exact absurd hA.2 (not_lt.mpr (by linarith))
    · exact absurd hB (not_lt.mpr (by linarith))
    · exact absurd hC (not_lt.mpr (by linarith))
    · rfl

/-- Witness for C3 at the concrete draw r = 1/25. -/
theorem randomEvents_recession_cases_witness :
    ((1:ℚ)/25 < 8/100 →
      randomEvents true wAgent (1/25) =
        { wAgent with employed := false, stress := wAgent.stress + 20 }) ∧
    (8/100 ≤ (1:ℚ)/25 → randomEvents true wAgent (1/25) = wAgent) :=
  randomEvents_recession_cases wAgent (1/25) (by norm_num) (by norm_num)

/-- Claim C6: stress floor — after any full monthly tick, for any agent and any
random draws, the resulting stress is at least 0. -/
theorem runMonth_stress_nonneg (recession : Bool) (ai : Agent) (d : MonthDraws) :
    0 ≤ (runMonth recession ai d).2.stress := by
  unfold runMonth
  dsimp only
  split_ifs <;> simp [updateStress]

/-- Claim C7: with the recession flag set, `randomEvents` never changes cash —
the unexpected-expense band is fully shadowed by the recession job-loss band —
and may mutate only the employed and stress fields. -/
theorem randomEvents_recession_cash_frame (ai : Agent) (r : ℚ)
    (h0 : 0 ≤ r) (h1 : r < 1) :
    (randomEvents true ai r).cash = ai.cash ∧
    randomEvents true ai r =
      { ai with employed := (randomEvents true ai r).employed,
                stress := (randomEvents true ai r).stress } := by
  unfold randomEvents
  split_ifs with hA hB hC
  · exact ⟨rfl, rfl⟩
  · exact absurd ⟨rfl, by linarith⟩ hA
  · exact absurd ⟨rfl, by linarith⟩ hA
  · exact ⟨rfl, rfl⟩

/-- Witness for C7 at the concrete draw r = 1/20. -/
theorem randomEvents_recession_cash_frame_witness :
    (randomEvents true wAgent (1/20)).cash = wAgent.cash ∧
    randomEvents true wAgent (1/20) =
      { wAgent with employed := (randomEvents true wAgent (1/20)).employed,
                    stress := (randomEvents true wAgent (1/20)).stress } :=
  randomEvents_recession_cash_frame wAgent (1/20) (by norm_num) (by norm_num)

/-- Claim C8: income additivity — with employed, sideHustle and a business all
present, one income step adds exactly salary + sideHustleDraw +
business.revenue to cash, with the side-hustle draw in [300, 700); and in
general the three income sources are applied independently, each absent flag
simply omitting its term. -/
theorem processIncome_additive :
    (∀ (ai : Agent) (b : Business) (u : ℚ),
      0 ≤ u → u < 1 →
      ai.employed = true → ai.sideHustle = true → ai.business = some b →
      (processIncome ai u).cash
          = ai.cash + ai.salary + (300 + u * 400) + b.revenue ∧
        300 ≤ 300 + u * 400 ∧ 300 + u * 400 < 700) ∧
    (∀ (ai : Agent) (u : ℚ),
      (processIncome ai u).cash
        = ai.cash + (if ai.employed then ai.salary else 0) +
            (if ai.sideHustle then 300 + u * 400 else 0) +
            (match ai.business with
              | some b => b.revenue
              | none => 0)) := by
  constructor
  · intro ai b u hu0 hu1 he hs hb
    refine ⟨?_, by linarith, by linarith⟩
    unfold processIncome
    rw [hb]
    simp [he, hs]
  · intro ai u
    unfold processIncome
    cases hb : ai.business <;> cases hE : ai.employed <;>
      cases hS : ai.sideHustle <;> simp [hb, hE, hS]

/-- Witness for C8 at the concrete all-streams agent and draw u = 1/2. -/
theorem processIncome_additive_witness :
    (processIncome hustleAgent (1/2)).cash
        = hustleAgent.cash + hustleAgent.salary + (300 + (1/2 : ℚ) * 400) +
            (Business.mk 1000).revenue ∧
      (300 : ℚ) ≤ 300 + (1/2 : ℚ) * 400 ∧ 300 + (1/2 : ℚ) * 400 < 700 :=
  processIncome_additive.1 hustleAgent (Business.mk 1000) (1/2)
    (by norm_num) (by norm_num) rfl rfl rfl

/-- An agent whose invest and start_business scores tie exactly at the maximum
when all four jitters are zero: emergencyMonths = 4, so invest scores
4*5 + 1*10 = 30 and start_business scores 1*30 = 30, while save scores -15 and
job_search -100. -/
def tieAgent : Agent :=
  { name := "T", color := "#abc", cash := 6000, salary := 2000, rent := 800,
    food := 400, otherExpenses := 300, investments := 0, riskTolerance := 1,
    discipline := 1, intelligence := 1/2, stress := 0, employed := true,
    sideHustle := false, business := none, alive := true }

/-- Claim C2, counterexample: on a concrete agent state and jitter assignment
where invest and start_business tie at the maximal score, the decision engine
does not return the earliest tied action (invest) — the reduce fold keeps the
incumbent only on a strictly greater score, so it returns start_business. -/
theorem decisionEngine_tie_counterexample :
    scores tieAgent 0 0 0 0 Action.invest
        = scores tieAgent 0 0 0 0 Action.start_business ∧
    scores tieAgent 0 0 0 0 Action.save
        ≤ scores tieAgent 0 0 0 0 Action.invest ∧
    scores tieAgent 0 0 0 0 Action.start_business
        ≤ scores tieAgent 0 0 0 0 Action.invest ∧
    scores tieAgent 0 0 0 0 Action.job_search
        ≤ scores tieAgent 0 0 0 0 Action.invest ∧
    (decisionEngine tieAgent 0 0 0 0).1 ≠ Action.invest ∧
    (decisionEngine tieAgent 0 0 0 0).1 = Action.start_business := by
  have hbest : (decisionEngine tieAgent 0 0 0 0).1 = Action.start_business := by
    norm_num [decisionEngine, pickBest, scores, getContext, tieAgent]
  refine ⟨?_, ?_, ?_, ?_, ?_, hbest⟩ <;>
    first
      | (rw [hbest]; exact fun h => Action.noConfusion h)
      | norm_num [scores, getContext, tieAgent]

/-- Claim C2, amended: the decision policy selects the action with the greatest
post-jitter score, and on an exact tie it selects the LAST action in the fixed
enumeration order (save, invest, start_business, job_search) among those
achieving the maximum: for every agent state and jitter assignment, the chosen
action's score is not exceeded by any other action's score, and strictly
exceeds the score of every action later in the enumeration order. -/
theorem decisionEngine_last_argmax (ai : Agent) (j1 j2 j3 j4 : ℚ) :
    (∀ b, scores ai j1 j2 j3 j4 b
        ≤ scores ai j1 j2 j3 j4 (decisionEngine ai j1 j2 j3 j4).1) ∧
    (∀ b, (decisionEngine ai j1 j2 j3 j4).1.idx < b.idx →
      scores ai j1 j2 j3 j4 b
        < scores ai j1 j2 j3 j4 (decisionEngine ai j1 j2 j3 j4).1) :=
  ⟨fun b => pickBest_le (scores ai j1 j2 j3 j4) b,
   fun b hb => pickBest_later_lt (scores ai j1 j2 j3 j4) b hb⟩

/-- Witness for the amended C2 theorem at a concrete agent and jitter tuple,
with the strict-later hypothesis discharged at job_search. -/
theorem decisionEngine_last_argmax_witness :
    scores tieAgent 0 0 0 0 Action.save
        ≤ scores tieAgent 0 0 0 0 (decisionEngine tieAgent 0 0 0 0).1 ∧
    scores tieAgent 0 0 0 0 Action.job_search
        < scores tieAgent 0 0 0 0 (decisionEngine tieAgent 0 0 0 0).1 :=
  ⟨(decisionEngine_last_argmax tieAgent 0 0 0 0).1 Action.save,
   (decisionEngine_last_argmax tieAgent 0 0 0 0).2 Action.job_search
     (by norm_num [decisionEngine, pickBest, scores, getContext, tieAgent,
       Action.idx])⟩

/-- An unemployed agent holding 100 in cash with total fixed costs 1500. -/
def brokeAgent : Agent :=
  { name := "B", color := "#a00", cash := 100, salary := 2000, rent := 800,
    food := 400, otherExpenses := 300, investments := 0, riskTolerance := 1/2,
    discipline := 1/2, intelligence := 1/2, stress := 0, employed := false,
    sideHustle := false, business := none, alive := true }

/-- Claim C9: for any unemployed agent with cash 100, no business, total fixed
monthly costs 1500 and traits within [0,1], the decision engine selects
job_search for every assignment of the four jitter values in [-2.5, 2.5): the
job_search score of 100 plus minimal jitter strictly exceeds every other
action's score plus maximal jitter. -/
theorem decisionEngine_broke_selects_job_search (ai : Agent) (j1 j2 j3 j4 : ℚ)
    (he : ai.employed = false) (hc : ai.cash = 100) (hb : ai.business = none)
    (hx : ai.rent + ai.food + ai.otherExpenses = 1500)
    (hd0 : 0 ≤ ai.discipline) (hd1 : ai.discipline ≤ 1)
    (hr0 : 0 ≤ ai.riskTolerance) (hr1 : ai.riskTolerance ≤ 1)
    (hj1 : -(5/2) ≤ j1) (hj1b : j1 < 5/2)
    (hj2 : -(5/2) ≤ j2) (hj2b : j2 < 5/2)
    (hj3 : -(5/2) ≤ j3) (hj3b : j3 < 5/2)
    (hj4 : -(5/2) ≤ j4) (hj4b : j4 < 5/2) :
    (decisionEngine ai j1 j2 j3 j4).1 = Action.job_search := by
  have hem : (getContext ai).emergencyMonths = 1/15 := by
    show ai.cash / (ai.rent + ai.food + ai.otherExpenses) = 1/15
    rw [hc, hx]
    norm_num
  show pickBest (scores ai j1 j2 j3 j4) = Action.job_search
  apply pickBest_eq_job_search <;>
    simp only [scores, hem, he, hc, hb] <;> norm_num <;> linarith

/-- Witness for C9 at a concrete unemployed agent with all jitters zero. -/
theorem decisionEngine_broke_selects_job_search_witness :
    (decisionEngine brokeAgent 0 0 0 0).1 = Action.job_search :=
  decisionEngine_broke_selects_job_search brokeAgent 0 0 0 0 rfl rfl rfl
    (by norm_num [brokeAgent]) (by norm_num [brokeAgent])
    (by norm_num [brokeAgent]) (by norm_num [brokeAgent])
    (by norm_num [brokeAgent]) (by norm_num) (by norm_num) (by norm_num)
    (by norm_num) (by norm_num) (by norm_num) (by norm_num) (by norm_num)

/-! ### Preservation through the full tick -/

lemma decisionEngine_snd_alive (ai : Agent) (j1 j2 j3 j4 : ℚ) :
    (decisionEngine ai j1 j2 j3 j4).2.alive = ai.alive :=
  executeAction_alive ai _

lemma decisionEngine_snd_sideHustle (ai : Agent) (j1 j2 j3 j4 : ℚ) :
    (decisionEngine ai j1 j2 j3 j4).2.sideHustle = ai.sideHustle :=
  executeAction_sideHustle ai _

lemma runMonth_alive_mono (recession : Bool) (ai : Agent) (d : MonthDraws)
    (h : ai.alive = false) : (runMonth recession ai d).2.alive = false := by
  unfold runMonth
  dsimp only
  split_ifs
  · rfl
  · rw [updateStress_alive, applyInvestments_alive, decisionEngine_snd_alive,
      randomEvents_alive, processExpenses_alive, processIncome_alive]
    exact h

lemma stepAgent_dead (recession : Bool) (ai : Agent) (d : MonthDraws)
    (h : ai.alive = false) : stepAgent recession ai d = (Label.bankrupt, ai) := by
  unfold stepAgent
  rw [h]
  rfl

lemma simulate_dead (recession : Bool) (ai : Agent) (ds : List MonthDraws)
    (h : ai.alive = false) : simulate recession ai ds = ai := by
  induction ds with
  | nil => rfl
  | cons d ds ih =>
      rw [simulate, stepAgent_dead recession ai d h]
      exact ih

lemma runMonth_sideHustle (recession : Bool) (ai : Agent) (d : MonthDraws) :
    (runMonth recession ai d).2.sideHustle = ai.sideHustle := by
  unfold runMonth
  dsimp only
  split_ifs <;>
    simp [updateStress_sideHustle, applyInvestments_sideHustle,
      decisionEngine_snd_sideHustle, randomEvents_sideHustle,
      processExpenses_sideHustle, processIncome_sideHustle]

lemma stepAgent_sideHustle (recession : Bool) (ai : Agent) (d : MonthDraws) :
    (stepAgent recession ai d).2.sideHustle = ai.sideHustle := by
  unfold stepAgent
  split_ifs
  · exact runMonth_sideHustle recession ai d
  · rfl

lemma simulate_sideHustle (recession : Bool) (ai : Agent) (ds : List MonthDraws) :
    (simulate recession ai ds).sideHustle = ai.sideHustle := by
  induction ds generalizing ai with
  | nil => rfl
  | cons d ds ih =>
      rw [simulate, ih, stepAgent_sideHustle]

/-! ### The start_business score is always strictly dominated once a business
exists -/

lemma scores_start_business_dominated (ai : Agent) (j1 j2 j3 j4 : ℚ)
    (hr0 : 0 ≤ ai.riskTolerance) (hr1 : ai.riskTolerance ≤ 1)
    (hd0 : 0 ≤ ai.discipline)
    (hj1 : -(5/2) ≤ j1) (hj2 : -(5/2) ≤ j2) (hj3b : j3 < 5/2)
    (hb : ai.business.isSome = true) :
    ∃ b, scores ai j1 j2 j3 j4 Action.start_business
        < scores ai j1 j2 j3 j4 b := by
  have hsb : scores ai j1 j2 j3 j4 Action.start_business = -100 + j3 := by
    simp only [scores]
    rw [if_neg]
    rintro ⟨-, hnone⟩
    rw [hnone] at hb
    simp at hb
  rcases le_or_lt (getContext ai).emergencyMonths 3 with hem | hem
  · refine ⟨Action.save, ?_⟩
    rw [hsb]
    simp only [scores]
    linarith
  · refine ⟨Action.invest, ?_⟩
    rw [hsb]
    simp only [scores]
    rw [if_pos hem]
    linarith

lemma decisionEngine_ne_start_business (ai : Agent) (j1 j2 j3 j4 : ℚ)
    (hr0 : 0 ≤ ai.riskTolerance) (hr1 : ai.riskTolerance ≤ 1)
    (hd0 : 0 ≤ ai.discipline)
    (hj1 : -(5/2) ≤ j1) (hj2 : -(5/2) ≤ j2) (hj3b : j3 < 5/2)
    (hb : ai.business.isSome = true) :
    (decisionEngine ai j1 j2 j3 j4).1 ≠ Action.start_business := by
  obtain ⟨b, hlt⟩ :=
    scores_start_business_dominated ai j1 j2 j3 j4 hr0 hr1 hd0 hj1 hj2 hj3b hb
  show pickBest (scores ai j1 j2 j3 j4) ≠ Action.start_business
  exact pickBest_ne_start_business _ b hlt

lemma runMonth_business_of_some (recession : Bool) (ai : Agent) (d : MonthDraws)
    (hr0 : 0 ≤ ai.riskTolerance) (hr1 : ai.riskTolerance ≤ 1)
    (hd0 : 0 ≤ ai.discipline)
    (hj1 : -(5/2) ≤ d.jSave) (hj2 : -(5/2) ≤ d.jInvest)
    (hj3b : d.jBusiness < 5/2)
    (hb : ai.business.isSome = true) :
    (runMonth recession ai d).2.business = ai.business := by
  have hchain : (randomEvents recession (processExpenses
      (processIncome ai d.uSide)) d.rEvent).business = ai.business := by
    rw [randomEvents_business, processExpenses_business, processIncome_business]
  have hr0' : 0 ≤ (randomEvents recession (processExpenses
      (processIncome ai d.uSide)) d.rEvent).riskTolerance := by
    rw [randomEvents_riskTolerance, processExpenses_riskTolerance,
      processIncome_riskTolerance]
    exact hr0
  have hr1' : (randomEvents recession (processExpenses
      (processIncome ai d.uSide)) d.rEvent).riskTolerance ≤ 1 := by
    rw [randomEvents_riskTolerance, processExpenses_riskTolerance,
      processIncome_riskTolerance]
    exact hr1
  have hd0' : 0 ≤ (randomEvents recession (processExpenses
      (processIncome ai d.uSide)) d.rEvent).discipline := by
    rw [randomEvents_discipline, processExpenses_discipline,
      processIncome_discipline]
    exact hd0
  have hb' : (randomEvents recession (processExpenses
      (processIncome ai d.uSide)) d.rEvent).business.isSome = true := by
    rw [hchain]
    exact hb
  have hsel := decisionEngine_ne_start_business
    (randomEvents recession (processExpenses (processIncome ai d.uSide))
      d.rEvent) d.jSave d.jInvest d.jBusiness d.jJob
    hr0' hr1' hd0' hj1 hj2 hj3b hb'
  have hexec : (decisionEngine (randomEvents recession (processExpenses
      (processIncome ai d.uSide)) d.rEvent) d.jSave d.jInvest d.jBusiness
      d.jJob).2.business = ai.business := by
    rw [← hchain]
    exact executeAction_business_of_ne _ _ hsel
  unfold runMonth
  dsimp only
  split_ifs <;>
    simp [updateStress_business, applyInvestments_business, hexec]

/-! ### Claim theorems (invariants) -/

/-- Claim C4: business creation is exactly-once.  While a business is present
(and traits and jitters lie in their documented ranges) some other action's
post-jitter score strictly exceeds the -100-based start_business score and the
decision engine never selects start_business; executing start_business installs
a business with revenue 1000 (deducting the fixed 5000); and a full monthly
tick never modifies or destroys an existing business. -/
theorem business_exactly_once :
    (∀ (ai : Agent) (j1 j2 j3 j4 : ℚ),
      0 ≤ ai.riskTolerance → ai.riskTolerance ≤ 1 →
      0 ≤ ai.discipline → ai.discipline ≤ 1 →
      -(5/2) ≤ j1 → j1 < 5/2 → -(5/2) ≤ j2 → j2 < 5/2 →
      -(5/2) ≤ j3 → j3 < 5/2 → -(5/2) ≤ j4 → j4 < 5/2 →
      ai.business.isSome = true →
      (∃ b, scores ai j1 j2 j3 j4 Action.start_business
          < scores ai j1 j2 j3 j4 b) ∧
        (decisionEngine ai j1 j2 j3 j4).1 ≠ Action.start_business) ∧
    (∀ ai : Agent,
      (executeAction ai Action.start_business).business
          = some { revenue := 1000 } ∧
        (executeAction ai Action.start_business).cash = ai.cash - 5000) ∧
    (∀ (recession : Bool) (ai : Agent) (d : MonthDraws),
      0 ≤ ai.riskTolerance → ai.riskTolerance ≤ 1 →
      0 ≤ ai.discipline → ai.discipline ≤ 1 →
      -(5/2) ≤ d.jSave → d.jSave < 5/2 →
      -(5/2) ≤ d.jInvest → d.jInvest < 5/2 →
      -(5/2) ≤ d.jBusiness → d.jBusiness < 5/2 →
      -(5/2) ≤ d.jJob → d.jJob < 5/2 →
      ai.business.isSome = true →
      (runMonth recession ai d).2.business = ai.business) := by
  refine ⟨?_, ?_, ?_⟩
  · intro ai j1 j2 j3 j4 hr0 hr1 hd0 hd1 hj1 hj1b hj2 hj2b hj3 hj3b hj4 hj4b hb
    exact ⟨scores_start_business_dominated ai j1 j2 j3 j4 hr0 hr1 hd0 hj1 hj2
        hj3b hb,
      decisionEngine_ne_start_business ai j1 j2 j3 j4 hr0 hr1 hd0 hj1 hj2
        hj3b hb⟩
  · exact fun ai => ⟨rfl, rfl⟩
  · intro recession ai d hr0 hr1 hd0 hd1 hj1 hj1b hj2 hj2b hj3 hj3b hj4 hj4b hb
    exact runMonth_business_of_some recession ai d hr0 hr1 hd0 hj1 hj2 hj3b hb

/-- Draws for one concrete witness month: mid-range income and event draws,
all four jitters zero. -/
def wDraws : MonthDraws :=
  { uSide := 1/2, rEvent := 1/2, jSave := 0, jInvest := 0, jBusiness := 0,
    jJob := 0, uReturn := 1/2 }

/-- Witness for C4 at a concrete business-owning agent, zero jitters, and a
concrete draw tuple. -/
theorem business_exactly_once_witness :
    ((∃ b, scores hustleAgent 0 0 0 0 Action.start_business
        < scores hustleAgent 0 0 0 0 b) ∧
      (decisionEngine hustleAgent 0 0 0 0).1 ≠ Action.start_business) ∧
    (executeAction wAgent Action.start_business).business
        = some { revenue := 1000 } ∧
    (runMonth true hustleAgent wDraws).2.business = hustleAgent.business :=
  ⟨business_exactly_once.1 hustleAgent 0 0 0 0 (by norm_num [hustleAgent])
      (by norm_num [hustleAgent]) (by norm_num [hustleAgent])
      (by norm_num [hustleAgent]) (by norm_num) (by norm_num) (by norm_num)
      (by norm_num) (by norm_num) (by norm_num) (by norm_num) (by norm_num)
      rfl,
   (business_exactly_once.2.1 wAgent).1,
   business_exactly_once.2.2 true hustleAgent wDraws
      (by norm_num [hustleAgent]) (by norm_num [hustleAgent])
      (by norm_num [hustleAgent]) (by norm_num [hustleAgent])
      (by norm_num [wDraws]) (by norm_num [wDraws]) (by norm_num [wDraws])
      (by norm_num [wDraws]) (by norm_num [wDraws]) (by norm_num [wDraws])
      (by norm_num [wDraws]) (by norm_num [wDraws]) rfl⟩

/-- Claim C5: death is terminal — a full monthly tick never resurrects a dead
agent, the driver runs none of the tick steps for a dead agent and emits the
fixed "BANKRUPT" label while leaving the agent unchanged, and any number of
further driver months leaves a dead agent in exactly its terminal state. -/
theorem death_is_terminal :
    (∀ (recession : Bool) (ai : Agent) (d : MonthDraws),
      ai.alive = false → (runMonth recession ai d).2.alive = false) ∧
    (∀ (recession : Bool) (ai : Agent) (d : MonthDraws),
      ai.alive = false → stepAgent recession ai d = (Label.bankrupt, ai)) ∧
    (∀ (recession : Bool) (ai : Agent) (ds : List MonthDraws),
      ai.alive = false → simulate recession ai ds = ai) :=
  ⟨fun recession ai d h => runMonth_alive_mono recession ai d h,
   fun recession ai d h => stepAgent_dead recession ai d h,
   fun recession ai ds h => simulate_dead recession ai ds h⟩

/-- A bankrupt agent held in its terminal state. -/
def deadAgent : Agent := { wAgent with alive := false, cash := -100 }

/-- Witness for C5 at a concrete dead agent. -/
theorem death_is_terminal_witness :
    (runMonth true deadAgent wDraws).2.alive = false ∧
    stepAgent true deadAgent wDraws = (Label.bankrupt, deadAgent) ∧
    simulate true deadAgent [wDraws] = deadAgent :=
  ⟨death_is_terminal.1 true deadAgent wDraws rfl,
   death_is_terminal.2.1 true deadAgent wDraws rfl,
   death_is_terminal.2.2 true deadAgent [wDraws] rfl⟩

/-- Claim C10: sideHustle is false in every reachable agent state — createAI
initialises it to false, no engine function ever assigns it (one driver month
and any sequence of driver months preserve it), so every agent constructed by
createAI still has sideHustle = false after any number of simulated months,
and on such agents the side-hustle income branch contributes nothing: income
is exactly salary (if employed) plus business revenue (if present). -/
theorem sideHustle_unreachable :
    (∀ (name : String) (rt dc it : ℚ) (c : String),
      (createAI name rt dc it c).sideHustle = false) ∧
    (∀ (recession : Bool) (ai : Agent) (d : MonthDraws),
      (stepAgent recession ai d).2.sideHustle = ai.sideHustle) ∧
    (∀ (recession : Bool) (name c : String) (rt dc it : ℚ)
        (ds : List MonthDraws),
      (simulate recession (createAI name rt dc it c) ds).sideHustle = false) ∧
    (∀ (ai : Agent) (u : ℚ), ai.sideHustle = false →
      (processIncome ai u).cash
        = ai.cash + (if ai.employed then ai.salary else 0) +
            (match ai.business with
              | some b => b.revenue
              | none => 0)) := by
  refine ⟨fun _ _ _ _ _ => rfl, fun recession ai d =>
    stepAgent_sideHustle recession ai d, ?_, ?_⟩
  · intro recession name c rt dc it ds
    rw [simulate_sideHustle]
    rfl
  · intro ai u hs
    unfold processIncome
    cases hb : ai.business <;> cases hE : ai.employed <;> simp [hb, hE, hs]

/-- Witness for C10: the no-side-hustle income decomposition at a concrete
agent and draw. -/
theorem sideHustle_unreachable_witness :
    (processIncome wAgent (1/2)).cash
      = wAgent.cash + (if wAgent.employed then wAgent.salary else 0) +
          (match wAgent.business with
            | some b => b.revenue
            | none => 0) :=
  sideHustle_unreachable.2.2.2 wAgent (1/2) rfl

end RentSim
